import Mathlib

/-!
Shallow embedding of the Sage voice-analysis feature-extraction core.

The Python sources embedded here are:
* `functions/core/models/entities.py` — `FeatureMetadata`, `FeatureSet`;
* `functions/core/infrastructure/utilities/feature_formatter.py` —
  `FeatureFormatter.flatten_feature_sets`;
* `functions/feature_extractors/vocal_analysis_extractor.py` —
  `VocalAnalysisExtractor.extract` (success and error branches),
  `_calculate_vocal_stability_score`, `validate_audio_quality`,
  `get_feature_names`;
* `functions/feature_extractors/base.py` — `BaseFeatureExtractor.validate_audio_quality`;
* `functions/services/audio_processing_service.py` — `AudioProcessingService.validate_audio_quality`;
* `functions/utilities/audio_utils.py` — `calculate_duration`, `calculate_rms`,
  `safe_mean`, `safe_std`;
* `functions/services/voice_analysis_service.py` — `VoiceAnalysisService.analyze`.

Modelling conventions.
Python floats are modelled as rationals (`ℚ`).  Where IEEE NaN behaviour is
relevant (the RMS loudness gate), a float is modelled as `Option ℚ` with
`none` standing for NaN: NaN propagates through arithmetic and every ordered
comparison against NaN is `false`, exactly as in IEEE-754/NumPy.  Square
roots (`np.sqrt`, the square root inside `np.std`) are not exactly
representable on `ℚ`, so every definition that needs one takes an abstract
`sqrtQ : ℚ → ℚ` parameter; no theorem below depends on the value of a square
root.  Python dicts built by append-only insertion are modelled as
association lists in insertion order; dict lookup for the aggregated record
is modelled by `recordGet`, a left fold replaying the insertions
(last write wins), matching the Python dict built in `flatten_feature_sets`.
-/

namespace Sage

/-- Scalar value stored in the flattened/aggregated record: a number,
a string (version, error kind, error message), or Python `None`. -/
inductive Val where
  | num (q : ℚ)
  | str (s : String)
  | null
  deriving DecidableEq

/-- `FeatureMetadata` from `entities.py`.  Note that in the source the first
three fields are *not* `Optional`: they are plain floats/ints with default
`0.0`/`0`; only `frame_count` and `voiced_frame_count` default to `None`. -/
structure FeatureMetadata where
  duration_seconds : ℚ := 0
  voiced_ratio : ℚ := 0
  sample_rate : ℤ := 0
  frame_count : Option ℤ := none
  voiced_frame_count : Option ℤ := none
  deriving DecidableEq

/-- `FeatureSet` from `entities.py`.  `features` is a Python dict built by
append-only insertion with distinct keys, modelled as an association list in
insertion order. -/
structure FeatureSet where
  extractor : String
  version : String
  features : List (String × ℚ)
  metadata : Option FeatureMetadata := none
  error : Option String := none
  error_message : Option String := none
  deriving DecidableEq

/-- Python dict lookup with default: `features.get(k, d)`. -/
def featGet (f : List (String × ℚ)) (k : String) (d : ℚ) : ℚ :=
  match f.find? (fun p => p.1 == k) with
  | some p => p.2
  | none => d

/-- Python dict lookup without default: `features[k]` as an `Option`. -/
def featLookup (f : List (String × ℚ)) (k : String) : Option ℚ :=
  (f.find? (fun p => p.1 == k)).map (fun p => p.2)

/-- The namespaced key `f"{extractor}_{key}"` from `flatten_feature_sets`. -/
def nsKey (e k : String) : String := e ++ "_" ++ k

/-- Python truthiness of the `Optional[str]` field `fs.error`
(the `if fs.error:` test): `None` and the empty string are falsy. -/
def errTruthy : Option String → Bool
  | none => false
  | some s => !(s == "")

/-- An `Optional[str]` stored as a record value. -/
def valOfOptStr : Option String → Val
  | none => Val.null
  | some s => Val.str s

/-- The `(field, value)` pairs of `metadata.__dict__.items()` in dataclass
declaration order, filtered by the `value is not None` test of
`flatten_feature_sets`.  The three non-`Optional` fields are never `None`
in Python, hence always emitted. -/
def metadataPairs (m : FeatureMetadata) : List (String × Val) :=
  [("duration_seconds", Val.num m.duration_seconds),
   ("voiced_ratio", Val.num m.voiced_ratio),
   ("sample_rate", Val.num (m.sample_rate : ℚ))]
  ++ (match m.frame_count with
      | some n => [("frame_count", Val.num (n : ℚ))]
      | none => [])
  ++ (match m.voiced_frame_count with
      | some n => [("voiced_frame_count", Val.num (n : ℚ))]
      | none => [])

/-- The key/value pairs one `FeatureSet` contributes to the flattened dict,
in the insertion order of `FeatureFormatter.flatten_feature_sets`:
namespaced features, then `{extractor}_version`, then (if `fs.error` is
truthy) `{extractor}_error_type` and `{extractor}_error_message`, then the
non-null metadata fields as `{extractor}_metadata_{field}`. -/
def emitFS (fs : FeatureSet) : List (String × Val) :=
  fs.features.map (fun p => (nsKey fs.extractor p.1, Val.num p.2))
  ++ [(nsKey fs.extractor "version", Val.str fs.version)]
  ++ (if errTruthy fs.error then
        [(nsKey fs.extractor "error_type", valOfOptStr fs.error),
         (nsKey fs.extractor "error_message", valOfOptStr fs.error_message)]
      else [])
  ++ (match fs.metadata with
      | some m => (metadataPairs m).map
          (fun p => (nsKey fs.extractor ("metadata_" ++ p.1), p.2))
      | none => [])

/-- `FeatureFormatter.flatten_feature_sets`: the sequence of dict insertions
performed over all feature sets, in order. -/
def flatten_feature_sets (l : List FeatureSet) : List (String × Val) :=
  l.flatMap emitFS

/-- Lookup in the dict built by replaying the insertions of
`flatten_feature_sets` left to right; a later insertion with the same key
overwrites an earlier one, as in a Python dict. -/
def recordGet (r : List (String × Val)) (k : String) : Option Val :=
  r.foldl (fun acc p => if p.1 == k then some p.2 else acc) none

/-- The jitter `if`/`elif` ladder of `_calculate_vocal_stability_score`
(the value bound to `jitter_score` once `jitter > 0`). -/
def jitter_score (jitter : ℚ) : ℚ :=
  if jitter < 1 then 100
  else if jitter < 2 then 80
  else if jitter < 5 then max 0 (80 - ((jitter - 2) / 3) * 60)
  else 20

/-- The shimmer `if`/`elif` ladder of `_calculate_vocal_stability_score`. -/
def shimmer_score (shimmer : ℚ) : ℚ :=
  if shimmer < 4 then 100
  else if shimmer < 6 then 80
  else if shimmer < 10 then max 0 (80 - ((shimmer - 6) / 4) * 60)
  else 20

/-- The HNR `if`/`elif` ladder of `_calculate_vocal_stability_score`;
`th` is `self.excellent_hnr_threshold` (config default `20.0`). -/
def hnr_score (th : ℚ) (hnr : ℚ) : ℚ :=
  if hnr ≥ th then 100
  else if hnr ≥ 15 then 80
  else if hnr ≥ 10 then 60
  else max 0 (hnr / 10 * 40)

/-- `VocalAnalysisExtractor._calculate_vocal_stability_score`: builds the
`scores` list (the F0-confidence term unconditionally, the jitter, shimmer
and HNR terms only when the source feature is `> 0`) and returns its sum,
or `0.0` for an empty list. -/
def calculate_vocal_stability_score (th : ℚ) (features : List (String × ℚ)) : ℚ :=
  let scores : List ℚ :=
    [featGet features "f0_confidence" 0 * 0.4]
    ++ (let jitter := featGet features "jitter_local" 0
        if jitter > 0 then [jitter_score jitter * 0.2] else [])
    ++ (let shimmer := featGet features "shimmer_local" 0
        if shimmer > 0 then [shimmer_score shimmer * 0.2] else [])
    ++ (let hnr := featGet features "hnr_mean" 0
        if hnr > 0 then [hnr_score th hnr * 0.2] else [])
  if scores = [] then 0 else scores.sum

/-- Python `round(x, d)` used by the extractor: decimal rounding to `d`
places (the tie-breaking rule is irrelevant to every theorem below). -/
def roundTo (d : ℕ) (x : ℚ) : ℚ := (round (x * 10 ^ d) : ℚ) / 10 ^ d

/-- `safe_mean` from `audio_utils.py`: arithmetic mean, `0.0` on empty input. -/
def safe_mean (l : List ℚ) : ℚ :=
  if l.length > 0 then l.sum / l.length else 0

/-- `safe_std` from `audio_utils.py`: population standard deviation
(`np.std`), `0.0` on empty input; the square root is abstract. -/
def safe_std (sqrtQ : ℚ → ℚ) (l : List ℚ) : ℚ :=
  if l.length > 0 then
    sqrtQ (((l.map (fun x => (x - l.sum / l.length) ^ 2)).sum) / l.length)
  else 0

/-- Raw outputs of the eight `parselmouth.praat.call` jitter/shimmer queries
in `VocalAnalysisExtractor.extract` (period-based fractions / seconds / dB,
before the extractor's scaling and rounding).  The surrounding `try` block
zero-fills all eight features if any of the calls raises, so only the
all-succeeded outcome needs the individual values. -/
structure JSResults where
  jitter_local : ℚ
  jitter_absolute : ℚ
  jitter_rap : ℚ
  jitter_ppq5 : ℚ
  shimmer_local : ℚ
  shimmer_db : ℚ
  shimmer_apq3 : ℚ
  shimmer_apq5 : ℚ
  deriving DecidableEq

/-- The success path of `VocalAnalysisExtractor.extract` (no exception
escapes the outer `try`).  The acoustic engine (Parselmouth/Praat) is
external to the repository, so its outputs are parameters of the embedding:
`pitch_values` is `pitch.selected_array['frequency']` (one F0 per frame,
`0` marking an unvoiced frame); `js` is `some` of the eight raw
jitter/shimmer values when every `praat.call` in the jitter/shimmer `try`
block succeeds and `none` when that block raises (its `except` zero-fills
all eight features); `harm` is `some` of `harmonicity.values` when
`to_harmonicity` succeeds and `none` when the HNR `try` block raises.
Everything after those engine outputs is the source's own logic, translated
clause by clause. -/
def extract_success (sqrtQ : ℚ → ℚ) (th : ℚ) (ver : String)
    (pitch_values : List ℚ) (js : Option JSResults) (harm : Option (List ℚ))
    (sample_rate : ℤ) : FeatureSet :=
  let voiced_frames := pitch_values.filter (fun x => x > 0)
  let f0_block : List (String × ℚ) :=
    if voiced_frames.length > 0 then
      [("f0_mean", roundTo 1 (safe_mean voiced_frames)),
       ("f0_std", roundTo 1 (safe_std sqrtQ voiced_frames)),
       ("f0_confidence",
        roundTo 1 ((voiced_frames.length : ℚ) / (pitch_values.length : ℚ) * 100))]
    else
      [("f0_mean", 0), ("f0_std", 0), ("f0_confidence", 0)]
  let voiced_ratio : ℚ :=
    if voiced_frames.length > 0 then
      (voiced_frames.length : ℚ) / (pitch_values.length : ℚ)
    else 0
  let quality_block : List (String × ℚ) :=
    if voiced_frames.length > 10 then
      (match js with
       | some j =>
         [("jitter_local", roundTo 3 (j.jitter_local * 100)),
          ("jitter_absolute", roundTo 1 (j.jitter_absolute * 1000000)),
          ("jitter_rap", roundTo 3 (j.jitter_rap * 100)),
          ("jitter_ppq5", roundTo 3 (j.jitter_ppq5 * 100)),
          ("shimmer_local", roundTo 3 (j.shimmer_local * 100)),
          ("shimmer_db", roundTo 3 j.shimmer_db),
          ("shimmer_apq3", roundTo 3 (j.shimmer_apq3 * 100)),
          ("shimmer_apq5", roundTo 3 (j.shimmer_apq5 * 100))]
       | none =>
         [("jitter_local", 0), ("jitter_absolute", 0),
          ("jitter_rap", 0), ("jitter_ppq5", 0),
          ("shimmer_local", 0), ("shimmer_db", 0),
          ("shimmer_apq3", 0), ("shimmer_apq5", 0)])
      ++ (match harm with
          | some hv =>
            let hnr_values := hv.filter (fun x => x ≠ -200)
            if hnr_values.length > 0 then
              [("hnr_mean", roundTo 1 (safe_mean hnr_values)),
               ("hnr_std", roundTo 1 (safe_std sqrtQ hnr_values))]
            else
              [("hnr_mean", 0), ("hnr_std", 0)]
          | none => [("hnr_mean", 0), ("hnr_std", 0)])
    else
      [("jitter_local", 0), ("jitter_absolute", 0),
       ("shimmer_local", 0), ("shimmer_db", 0),
       ("hnr_mean", 0), ("hnr_std", 0)]
  let features := f0_block ++ quality_block
  let features := features ++
    [("vocal_stability_score", roundTo 1 (calculate_vocal_stability_score th features))]
  { extractor := "vocal_analysis"
    version := ver
    features := features
    metadata := some
      { voiced_ratio := voiced_ratio
        sample_rate := sample_rate
        frame_count := some (pitch_values.length : ℤ)
        voiced_frame_count := some (voiced_frames.length : ℤ) }
    error := none
    error_message := none }

/-- The zero-filled features dict of both error branches of
`VocalAnalysisExtractor.extract` (it has 10 keys; `jitter_rap`,
`jitter_ppq5`, `shimmer_apq3` and `shimmer_apq5` are not among them). -/
def errorZeroFeatures : List (String × ℚ) :=
  [("f0_mean", 0), ("f0_std", 0), ("f0_confidence", 0),
   ("jitter_local", 0), ("jitter_absolute", 0),
   ("shimmer_local", 0), ("shimmer_db", 0),
   ("hnr_mean", 0), ("hnr_std", 0),
   ("vocal_stability_score", 0)]

/-- The `except ImportError` branch of `VocalAnalysisExtractor.extract`
(Parselmouth missing at runtime): error kind `'parselmouth_unavailable'`,
zero-filled features, metadata with the nominal `voiced_ratio=0.8`
placeholder. -/
def extract_library_unavailable (sample_rate : ℤ) (msg : String) (ver : String) :
    FeatureSet :=
  { extractor := "vocal_analysis"
    version := ver
    features := errorZeroFeatures
    metadata := some { voiced_ratio := 0.8, sample_rate := sample_rate }
    error := some "parselmouth_unavailable"
    error_message := some msg }

/-- The final `except Exception` branch of `VocalAnalysisExtractor.extract`:
error kind `'extraction_failed'`, zero-filled features, metadata with
`voiced_ratio=0.0`. -/
def extract_extraction_failed (sample_rate : ℤ) (msg : String) (ver : String) :
    FeatureSet :=
  { extractor := "vocal_analysis"
    version := ver
    features := errorZeroFeatures
    metadata := some { voiced_ratio := 0, sample_rate := sample_rate }
    error := some "extraction_failed"
    error_message := some msg }

/-- `VocalAnalysisExtractor.get_feature_names`: the 14 canonical names. -/
def get_feature_names : List String :=
  ["f0_mean", "f0_std", "f0_confidence",
   "jitter_local", "jitter_absolute", "jitter_rap", "jitter_ppq5",
   "shimmer_local", "shimmer_db", "shimmer_apq3", "shimmer_apq5",
   "hnr_mean", "hnr_std",
   "vocal_stability_score"]

/-- An audio buffer whose samples are IEEE floats: `none` is NaN,
`some q` a finite value. -/
abbrev FAudio := List (Option ℚ)

/-- Sum of float samples: NaN-propagating. -/
def fsum (l : FAudio) : Option ℚ :=
  l.foldr (fun a acc =>
    match a, acc with
    | some x, some s => some (x + s)
    | _, _ => none) (some 0)

/-- `np.mean` on floats: NaN on the empty array, otherwise the
NaN-propagating sum divided by the length. -/
def fmean (l : FAudio) : Option ℚ :=
  if l.length = 0 then none
  else (fsum l).map (fun s => s / (l.length : ℚ))

/-- `calculate_rms` from `audio_utils.py`: `np.sqrt(np.mean(audio**2))`.
`np.sqrt` maps NaN to NaN, modelled by `Option.map`. -/
def calculate_rms (sqrtQ : ℚ → ℚ) (audio : FAudio) : Option ℚ :=
  (fmean (audio.map (fun a => a.map (fun x => x * x)))).map sqrtQ

/-- IEEE `<` against a finite right operand: any comparison with NaN is
false. -/
def fltLt (a : Option ℚ) (t : ℚ) : Bool :=
  match a with
  | none => false
  | some x => decide (x < t)

/-- `AudioProcessingService.validate_audio_quality`.  `calculate_duration`
raises `ValueError` for a non-positive sample rate and the surrounding
`try`/`except` turns any exception into `False`, hence the leading guard.
The duration bounds and the RMS bound are strict `<`/`>` rejections, so
both lower bounds are inclusive. -/
def validate_audio_quality (sqrtQ : ℚ → ℚ) (audio : FAudio) (sample_rate : ℤ)
    (min_duration max_duration min_rms : ℚ) : Bool :=
  if sample_rate ≤ 0 then false
  else if (audio.length : ℚ) / (sample_rate : ℚ) < min_duration then false
  else if (audio.length : ℚ) / (sample_rate : ℚ) > max_duration then false
  else if fltLt (calculate_rms sqrtQ audio) min_rms then false
  else true

/-- `validate_audio_quality` from `audio_utils.py`: the same gate as a free
function — empty audio fails, then the duration bounds, then the RMS bound
(all strict rejections, so the lower bounds are inclusive).  There is no
`try`/`except` here, so a positive sample rate is assumed
(`calculate_duration` raises `ValueError` otherwise). -/
def validate_audio_quality_utils (sqrtQ : ℚ → ℚ) (audio : FAudio)
    (sample_rate : ℤ) (min_duration max_duration min_rms : ℚ) : Bool :=
  if audio.length = 0 then false
  else if (audio.length : ℚ) / (sample_rate : ℚ) < min_duration
      ∨ (audio.length : ℚ) / (sample_rate : ℚ) > max_duration then false
  else if fltLt (calculate_rms sqrtQ audio) min_rms then false
  else true

/-- `BaseFeatureExtractor.validate_audio_quality`: empty audio fails, then
duration below `0.1` seconds fails.  (The source divides by `sample_rate`
unguarded; a positive sample rate is assumed wherever this is used.) -/
def base_validate_audio_quality (audio : FAudio) (sample_rate : ℤ) : Bool :=
  if audio.length = 0 then false
  else if (audio.length : ℚ) / (sample_rate : ℚ) < 0.1 then false
  else true

/-- `VocalAnalysisExtractor.validate_audio_quality`: the parent check,
then the extractor's own stricter `duration < 1.0` rejection. -/
def vocal_validate_audio_quality (audio : FAudio) (sample_rate : ℤ) : Bool :=
  if !base_validate_audio_quality audio sample_rate then false
  else if (audio.length : ℚ) / (sample_rate : ℚ) < 1 then false
  else true

/-- `VoiceAnalysisService.analyze`: runs every configured extractor's
`extract` on the buffer and collects the `FeatureSet`s.  No validation of
any kind is consulted here; each extractor is just its `extract` function. -/
def analyze (extractors : List (FAudio → ℤ → FeatureSet))
    (audio : FAudio) (sample_rate : ℤ) : List FeatureSet :=
  extractors.map (fun e => e audio sample_rate)

/-- The canonical names of `get_feature_names` that the error branches of
`extract` do NOT zero-fill (they are absent from `errorZeroFeatures`, and
likewise from the `voicedFrameCount ≤ 10` fallback of the success path). -/
def unfilledQualityNames : List String :=
  ["jitter_rap", "jitter_ppq5", "shimmer_apq3", "shimmer_apq5"]

/-- The six quality measures the `voicedFrameCount ≤ 10` branch of the
success path fills with `0.0`. -/
def lowVoicedZeroNames : List String :=
  ["jitter_local", "jitter_absolute", "shimmer_local", "shimmer_db",
   "hnr_mean", "hnr_std"]

/-- Key suffixes that `flatten_feature_sets` emits for a `FeatureSet` besides
its namespaced feature keys: the version key, the two error keys, and the
five possible `metadata_{field}` keys of `FeatureMetadata`. -/
def reservedSuffixes : List String :=
  ["version", "error_type", "error_message",
   "metadata_duration_seconds", "metadata_voiced_ratio",
   "metadata_sample_rate", "metadata_frame_count",
   "metadata_voiced_frame_count"]

/-! ## Helper lemmas -/

theorem fsum_eq_none_of_mem {l : FAudio} (h : none ∈ l) : fsum l = none := by
  induction l with
  | nil => cases h
  | cons a t ih =>
    have hstep : ∀ (x : Option ℚ) (l : FAudio), fsum (x :: l) =
        (match x, fsum l with
         | some y, some s => some (y + s)
         | _, _ => none) := fun x l => rfl
    rcases List.mem_cons.mp h with ha | ht
    · subst ha
      rw [hstep]
    · rw [hstep, ih ht]
      cases a <;> rfl

theorem calculate_rms_eq_none_of_mem (sqrtQ : ℚ → ℚ) {audio : FAudio}
    (h : none ∈ audio) : calculate_rms sqrtQ audio = none := by
  have hmem : none ∈ audio.map (fun a => a.map (fun x => x * x)) :=
    List.mem_map.mpr ⟨none, h, rfl⟩
  have hlen : (audio.map (fun a => a.map (fun x => x * x))).length ≠ 0 := by
    simp only [List.length_map]
    intro h0
    rw [List.length_eq_zero] at h0
    subst h0
    cases h
  unfold calculate_rms fmean
  rw [if_neg hlen, fsum_eq_none_of_mem hmem]
  rfl

/-! ## C6: the quality gate's lower bounds are inclusive -/

/-- C6.  The generic quality gate's lower bounds are inclusive: a buffer of
exactly `min_duration * sample_rate` samples passes (other checks held
passing), a buffer one sample shorter fails; a buffer whose RMS equals
`min_rms` exactly passes (duration checks held passing), and any RMS
strictly below `min_rms` fails. -/
theorem validate_audio_quality_boundary :
    (∀ (sqrtQ : ℚ → ℚ) (audio : FAudio) (sr : ℤ) (minD maxD minR : ℚ),
      0 < sr → (audio.length : ℚ) = minD * sr →
      (audio.length : ℚ) / (sr : ℚ) ≤ maxD →
      fltLt (calculate_rms sqrtQ audio) minR = false →
      validate_audio_quality sqrtQ audio sr minD maxD minR = true)
    ∧ (∀ (sqrtQ : ℚ → ℚ) (audio : FAudio) (sr : ℤ) (minD maxD minR : ℚ),
      0 < sr → (audio.length : ℚ) + 1 = minD * sr →
      validate_audio_quality sqrtQ audio sr minD maxD minR = false)
    ∧ (∀ (sqrtQ : ℚ → ℚ) (audio : FAudio) (sr : ℤ) (minD maxD minR : ℚ),
      0 < sr → minD ≤ (audio.length : ℚ) / (sr : ℚ) →
      (audio.length : ℚ) / (sr : ℚ) ≤ maxD →
      calculate_rms sqrtQ audio = some minR →
      validate_audio_quality sqrtQ audio sr minD maxD minR = true)
    ∧ (∀ (sqrtQ : ℚ → ℚ) (audio : FAudio) (sr : ℤ) (minD maxD minR r : ℚ),
      calculate_rms sqrtQ audio = some r → r < minR →
      validate_audio_quality sqrtQ audio sr minD maxD minR = false)
    ∧ (∀ (sqrtQ : ℚ → ℚ) (audio : FAudio) (sr : ℤ) (minD maxD minR : ℚ),
      0 < sr → 0 < minD → (audio.length : ℚ) = minD * sr →
      (audio.length : ℚ) / (sr : ℚ) ≤ maxD →
      fltLt (calculate_rms sqrtQ audio) minR = false →
      validate_audio_quality_utils sqrtQ audio sr minD maxD minR = true)
    ∧ (∀ (sqrtQ : ℚ → ℚ) (audio : FAudio) (sr : ℤ) (minD maxD minR : ℚ),
      0 < sr → (audio.length : ℚ) + 1 = minD * sr →
      validate_audio_quality_utils sqrtQ audio sr minD maxD minR = false)
    ∧ (∀ (sqrtQ : ℚ → ℚ) (audio : FAudio) (sr : ℤ) (minD maxD minR : ℚ),
      0 < sr → audio.length ≠ 0 → minD ≤ (audio.length : ℚ) / (sr : ℚ) →
      (audio.length : ℚ) / (sr : ℚ) ≤ maxD →
      calculate_rms sqrtQ audio = some minR →
      validate_audio_quality_utils sqrtQ audio sr minD maxD minR = true)
    ∧ (∀ (sqrtQ : ℚ → ℚ) (audio : FAudio) (sr : ℤ) (minD maxD minR r : ℚ),
      calculate_rms sqrtQ audio = some r → r < minR →
      validate_audio_quality_utils sqrtQ audio sr minD maxD minR = false) := by
  have hsrQ : ∀ sr : ℤ, 0 < sr → (0 : ℚ) < (sr : ℚ) := by
    intro sr h
    exact_mod_cast h
  refine ⟨?_, ?_, ?_, ?_, ?_, ?_, ?_, ?_⟩
  · intro sqrtQ audio sr minD maxD minR hsr hlen hmax hrms
    have hdur : (audio.length : ℚ) / (sr : ℚ) = minD := by
      rw [hlen]
      field_simp
    unfold validate_audio_quality
    rw [if_neg (by omega), hdur, if_neg (lt_irrefl minD),
      if_neg (not_lt.mpr (hdur ▸ hmax)), hrms]
    rfl
  · intro sqrtQ audio sr minD maxD minR hsr hlen
    have hdur : (audio.length : ℚ) / (sr : ℚ) < minD := by
      rw [div_lt_iff₀ (hsrQ sr hsr)]
      linarith
    unfold validate_audio_quality
    rw [if_neg (by omega), if_pos hdur]
  · intro sqrtQ audio sr minD maxD minR hsr hmin hmax hrms
    unfold validate_audio_quality
    rw [if_neg (by omega), if_neg (not_lt.mpr hmin), if_neg (not_lt.mpr hmax),
      hrms]
    simp [fltLt]
  · intro sqrtQ audio sr minD maxD minR r hrms hlt
    unfold validate_audio_quality
    split_ifs with h1 h2 h3 h4
    · rfl
    · rfl
    · rfl
    · rfl
    · exfalso
      rw [hrms] at h4
      simp [fltLt] at h4
      exact absurd hlt (not_lt.mpr h4)
  · intro sqrtQ audio sr minD maxD minR hsr hminD hlen hmax hrms
    have hdur : (audio.length : ℚ) / (sr : ℚ) = minD := by
      rw [hlen]
      field_simp
    have hne : audio.length ≠ 0 := by
      intro h0
      rw [h0] at hlen
      simp at hlen
      rcases hlen with h | h
      · exact absurd h (ne_of_gt hminD)
      · exact absurd h (by omega)
    unfold validate_audio_quality_utils
    rw [if_neg hne, if_neg (by rw [hdur]; push_neg; exact ⟨le_refl _, hdur ▸ hmax⟩),
      hrms]
    rfl
  · intro sqrtQ audio sr minD maxD minR hsr hlen
    unfold validate_audio_quality_utils
    by_cases hne : audio.length = 0
    · rw [if_pos hne]
    · rw [if_neg hne, if_pos]
      left
      rw [div_lt_iff₀ (hsrQ sr hsr)]
      linarith
  · intro sqrtQ audio sr minD maxD minR hsr hne hmin hmax hrms
    unfold validate_audio_quality_utils
    rw [if_neg hne, if_neg (by push_neg; exact ⟨hmin, hmax⟩), hrms]
    simp [fltLt]
  · intro sqrtQ audio sr minD maxD minR r hrms hlt
    unfold validate_audio_quality_utils
    split_ifs with h1 h2 h3
    · rfl
    · rfl
    · rfl
    · exfalso
      rw [hrms] at h3
      simp [fltLt] at h3
      exact absurd hlt (not_lt.mpr h3)

/-- Witness for `validate_audio_quality_boundary` at concrete inputs:
sample rate 4, `min_duration = 1/2`, `max_duration = 30`,
`min_rms = 1/1000`, with a square root oracle mapping `10^-6` to `10^-3`. -/
theorem validate_audio_quality_boundary_witness :
    ((0 : ℤ) < 4 ∧ ((2 : ℕ) : ℚ) = (1 / 2) * ((4 : ℤ) : ℚ)) ∧
    validate_audio_quality (fun q => if q = 1 / 1000000 then 1 / 1000 else 0)
      [some (1 / 1000), some (1 / 1000)] 4 (1 / 2) 30 (1 / 1000) = true ∧
    validate_audio_quality (fun q => if q = 1 / 1000000 then 1 / 1000 else 0)
      [some (1 / 1000)] 4 (1 / 2) 30 (1 / 1000) = false ∧
    validate_audio_quality (fun _ => 0)
      [some (1 / 1000), some (1 / 1000)] 4 (1 / 2) 30 (1 / 1000) = false ∧
    validate_audio_quality_utils (fun q => if q = 1 / 1000000 then 1 / 1000 else 0)
      [some (1 / 1000), some (1 / 1000)] 4 (1 / 2) 30 (1 / 1000) = true ∧
    validate_audio_quality_utils (fun q => if q = 1 / 1000000 then 1 / 1000 else 0)
      [some (1 / 1000)] 4 (1 / 2) 30 (1 / 1000) = false ∧
    validate_audio_quality_utils (fun _ => 0)
      [some (1 / 1000), some (1 / 1000)] 4 (1 / 2) 30 (1 / 1000) = false ∧
    validate_audio_quality (fun q => if q = 1 / 1000000 then 1 / 1000 else 0)
      [some (1 / 1000)] 2 (1 / 2) 30 (1 / 1000) = true ∧
    validate_audio_quality_utils (fun q => if q = 1 / 1000000 then 1 / 1000 else 0)
      [some (1 / 1000)] 2 (1 / 2) 30 (1 / 1000) = true := by
  have hrms : calculate_rms (fun q => if q = 1 / 1000000 then 1 / 1000 else 0)
      [some (1 / 1000), some (1 / 1000)] = some (1 / 1000) := by
    simp [calculate_rms, fmean, fsum]
    norm_num
  have hrms0 : calculate_rms (fun _ => (0 : ℚ))
      [some (1 / 1000), some (1 / 1000)] = some 0 := by
    simp [calculate_rms, fmean, fsum]
  have hrms1 : calculate_rms (fun q => if q = 1 / 1000000 then 1 / 1000 else 0)
      [some (1 / 1000)] = some (1 / 1000) := by
    simp [calculate_rms, fmean, fsum]
    norm_num
  refine ⟨⟨by norm_num, by norm_num⟩, ?_, ?_, ?_, ?_, ?_, ?_, ?_, ?_⟩
  · exact validate_audio_quality_boundary.1
      (fun q => if q = 1 / 1000000 then 1 / 1000 else 0)
      [some (1 / 1000), some (1 / 1000)] 4 (1 / 2) 30 (1 / 1000)
      (by norm_num) (by norm_num) (by norm_num)
      (by rw [hrms]; simp [fltLt])
  · exact validate_audio_quality_boundary.2.1
      (fun q => if q = 1 / 1000000 then 1 / 1000 else 0)
      [some (1 / 1000)] 4 (1 / 2) 30 (1 / 1000)
      (by norm_num) (by norm_num)
  · exact validate_audio_quality_boundary.2.2.2.1
      (fun _ => 0) [some (1 / 1000), some (1 / 1000)] 4 (1 / 2) 30 (1 / 1000)
      0 hrms0 (by norm_num)
  · exact validate_audio_quality_boundary.2.2.2.2.1
      (fun q => if q = 1 / 1000000 then 1 / 1000 else 0)
      [some (1 / 1000), some (1 / 1000)] 4 (1 / 2) 30 (1 / 1000)
      (by norm_num) (by norm_num) (by norm_num) (by norm_num)
      (by rw [hrms]; simp [fltLt])
  · exact validate_audio_quality_boundary.2.2.2.2.2.1
      (fun q => if q = 1 / 1000000 then 1 / 1000 else 0)
      [some (1 / 1000)] 4 (1 / 2) 30 (1 / 1000)
      (by norm_num) (by norm_num)
  · exact validate_audio_quality_boundary.2.2.2.2.2.2.2
      (fun _ => 0) [some (1 / 1000), some (1 / 1000)] 4 (1 / 2) 30 (1 / 1000)
      0 hrms0 (by norm_num)
  · exact validate_audio_quality_boundary.2.2.1
      (fun q => if q = 1 / 1000000 then 1 / 1000 else 0)
      [some (1 / 1000)] 2 (1 / 2) 30 (1 / 1000)
      (by norm_num) (by norm_num) (by norm_num) hrms1
  · exact validate_audio_quality_boundary.2.2.2.2.2.2.1
      (fun q => if q = 1 / 1000000 then 1 / 1000 else 0)
      [some (1 / 1000)] 2 (1 / 2) 30 (1 / 1000)
      (by norm_num) (by norm_num) (by norm_num) (by norm_num) hrms1

/-! ## C10: NaN samples slip through the loudness gate -/

/-- C10.  A buffer whose duration is within the configured bounds but which
contains at least one NaN sample passes the quality gate: the RMS evaluates
to NaN, `NaN < min_rms` is `false` (IEEE comparison), and no other check
rejects the buffer. -/
theorem nan_passes_quality_gate (sqrtQ : ℚ → ℚ) (audio : FAudio) (sr : ℤ)
    (minD maxD minR : ℚ) (hsr : 0 < sr)
    (hmin : minD ≤ (audio.length : ℚ) / (sr : ℚ))
    (hmax : (audio.length : ℚ) / (sr : ℚ) ≤ maxD)
    (hnan : none ∈ audio) :
    validate_audio_quality sqrtQ audio sr minD maxD minR = true := by
  unfold validate_audio_quality
  rw [if_neg (by omega), if_neg (not_lt.mpr hmin), if_neg (not_lt.mpr hmax),
    calculate_rms_eq_none_of_mem sqrtQ hnan]
  rfl

/-- Witness for `nan_passes_quality_gate`: a half-second two-sample buffer
at rate 4 containing a NaN passes the gate. -/
theorem nan_passes_quality_gate_witness :
    none ∈ ([none, some 0] : FAudio) ∧
    validate_audio_quality (fun _ => 0) [none, some 0] 4 (1 / 2) 30
      (1 / 1000) = true :=
  ⟨by simp,
   nan_passes_quality_gate (fun _ => 0) [none, some 0] 4 (1 / 2) 30 (1 / 1000)
     (by norm_num) (by norm_num) (by norm_num) (by simp)⟩

theorem jitter_score_lt_one {j : ℚ} (h : j < 1) : jitter_score j = 100 := by
  unfold jitter_score
  rw [if_pos h]

theorem jitter_score_one_two {j : ℚ} (h1 : 1 ≤ j) (h2 : j < 2) :
    jitter_score j = 80 := by
  unfold jitter_score
  rw [if_neg (not_lt.mpr h1), if_pos h2]

theorem jitter_score_two_five {j : ℚ} (h1 : 2 ≤ j) (h2 : j < 5) :
    jitter_score j = 80 - (j - 2) / 3 * 60 := by
  unfold jitter_score
  rw [if_neg (by linarith), if_neg (not_lt.mpr h1), if_pos h2,
    max_eq_right (by linarith)]

theorem jitter_score_ge_five {j : ℚ} (h : 5 ≤ j) : jitter_score j = 20 := by
  unfold jitter_score
  rw [if_neg (by linarith), if_neg (by linarith), if_neg (not_lt.mpr h)]

theorem jitter_score_bounds (j : ℚ) :
    20 ≤ jitter_score j ∧ jitter_score j ≤ 100 := by
  rcases lt_or_le j 1 with h1 | h1
  · rw [jitter_score_lt_one h1]
    norm_num
  · rcases lt_or_le j 2 with h2 | h2
    · rw [jitter_score_one_two h1 h2]
      norm_num
    · rcases lt_or_le j 5 with h5 | h5
      · rw [jitter_score_two_five h2 h5]
        constructor <;> linarith
      · rw [jitter_score_ge_five h5]
        norm_num

theorem shimmer_score_lt_four {s : ℚ} (h : s < 4) : shimmer_score s = 100 := by
  unfold shimmer_score
  rw [if_pos h]

theorem shimmer_score_four_six {s : ℚ} (h1 : 4 ≤ s) (h2 : s < 6) :
    shimmer_score s = 80 := by
  unfold shimmer_score
  rw [if_neg (not_lt.mpr h1), if_pos h2]

theorem shimmer_score_six_ten {s : ℚ} (h1 : 6 ≤ s) (h2 : s < 10) :
    shimmer_score s = 80 - (s - 6) / 4 * 60 := by
  unfold shimmer_score
  rw [if_neg (by linarith), if_neg (not_lt.mpr h1), if_pos h2,
    max_eq_right (by linarith)]

theorem shimmer_score_ge_ten {s : ℚ} (h : 10 ≤ s) : shimmer_score s = 20 := by
  unfold shimmer_score
  rw [if_neg (by linarith), if_neg (by linarith), if_neg (not_lt.mpr h)]

theorem shimmer_score_bounds (s : ℚ) :
    20 ≤ shimmer_score s ∧ shimmer_score s ≤ 100 := by
  rcases lt_or_le s 4 with h1 | h1
  · rw [shimmer_score_lt_four h1]
    norm_num
  · rcases lt_or_le s 6 with h2 | h2
    · rw [shimmer_score_four_six h1 h2]
      norm_num
    · rcases lt_or_le s 10 with h5 | h5
      · rw [shimmer_score_six_ten h2 h5]
        constructor <;> linarith
      · rw [shimmer_score_ge_ten h5]
        norm_num

theorem hnr_score_ge_th {th h : ℚ} (hh : th ≤ h) : hnr_score th h = 100 := by
  unfold hnr_score
  rw [if_pos hh]

theorem hnr_score_fifteen {th h : ℚ} (hth : ¬ th ≤ h) (h15 : 15 ≤ h) :
    hnr_score th h = 80 := by
  unfold hnr_score
  rw [if_neg hth, if_pos h15]

theorem hnr_score_ten {th h : ℚ} (hth : ¬ th ≤ h) (h15 : h < 15)
    (h10 : 10 ≤ h) : hnr_score th h = 60 := by
  unfold hnr_score
  rw [if_neg hth, if_neg (not_le.mpr h15), if_pos h10]

theorem hnr_score_low {th h : ℚ} (hth : ¬ th ≤ h) (h10 : h < 10)
    (h0 : 0 ≤ h) : hnr_score th h = h / 10 * 40 := by
  unfold hnr_score
  rw [if_neg hth, if_neg (by intro hc; linarith), if_neg (not_le.mpr h10),
    max_eq_right (by positivity)]

theorem hnr_score_bounds (th h : ℚ) :
    0 ≤ hnr_score th h ∧ hnr_score th h ≤ 100 := by
  unfold hnr_score
  split_ifs with h1 h2 h3
  · norm_num
  · norm_num
  · norm_num
  · constructor
    · exact le_max_left 0 _
    · rw [max_le_iff]
      constructor <;> [norm_num; linarith [not_le.mp h3]]

/-- The stability score written as the weighted sum the source computes:
the `scores` list of `_calculate_vocal_stability_score` is never empty
(the F0-confidence term is always appended), and its sum is the
F0-confidence term plus each conditionally-included component. -/
theorem stability_score_shape (th : ℚ) (f : List (String × ℚ)) :
    calculate_vocal_stability_score th f =
      featGet f "f0_confidence" 0 * 0.4
      + (if featGet f "jitter_local" 0 > 0
         then jitter_score (featGet f "jitter_local" 0) * 0.2 else 0)
      + (if featGet f "shimmer_local" 0 > 0
         then shimmer_score (featGet f "shimmer_local" 0) * 0.2 else 0)
      + (if featGet f "hnr_mean" 0 > 0
         then hnr_score th (featGet f "hnr_mean" 0) * 0.2 else 0) := by
  have hsum : ∀ (c : Prop) (inst : Decidable c) (x : ℚ),
      (if c then [x] else []).sum = if c then x else 0 := by
    intro c inst x
    split_ifs <;> simp
  simp only [calculate_vocal_stability_score]
  rw [if_neg (by simp)]
  rw [List.sum_append, List.sum_append, List.sum_append, hsum, hsum, hsum]
  simp only [List.sum_cons, List.sum_nil]
  ring

theorem nsKey_data (e k : String) :
    (nsKey e k).data = e.data ++ '_' :: k.data := by
  show (e ++ "_" ++ k).data = e.data ++ '_' :: k.data
  rw [String.data_append, String.data_append, List.append_assoc]
  rfl

theorem nsKey_inj_right {e a b : String} (h : nsKey e a = nsKey e b) :
    a = b := by
  apply String.ext
  have hd := congrArg String.data h
  rw [nsKey_data, nsKey_data] at hd
  have htail := List.append_cancel_left hd
  injection htail

theorem shorterLeadsOfAppendEq :
    ∀ (l₁ l₂ t₁ t₂ : List Char), l₁ ++ t₁ = l₂ ++ t₂ →
      l₁.length ≤ l₂.length → l₁ <+: l₂ := by
  intro l₁
  induction l₁ with
  | nil =>
    intro l₂ _ _ _ _
    exact ⟨l₂, rfl⟩
  | cons c l ih =>
    intro l₂ t₁ t₂ h hlen
    cases l₂ with
    | nil => simp at hlen
    | cons d l₂' =>
      simp only [List.cons_append] at h
      injection h with hcd htail
      rcases ih l₂' t₁ t₂ htail (by simpa using hlen) with ⟨u, hu⟩
      exact ⟨u, by rw [hcd, List.cons_append, hu]⟩

theorem nsKey_ne_cross {e₁ e₂ a b : String}
    (h₁ : ¬ e₁.data <+: e₂.data) (h₂ : ¬ e₂.data <+: e₁.data) :
    nsKey e₁ a ≠ nsKey e₂ b := by
  intro h
  have hd := congrArg String.data h
  rw [nsKey_data, nsKey_data] at hd
  rcases le_total e₁.data.length e₂.data.length with hle | hle
  · exact h₁ (shorterLeadsOfAppendEq _ _ _ _ hd hle)
  · exact h₂ (shorterLeadsOfAppendEq _ _ _ _ hd.symm hle)

theorem mem_metadataPairs_keys {m : FeatureMetadata} {q : String × Val}
    (h : q ∈ metadataPairs m) :
    q.1 ∈ ["duration_seconds", "voiced_ratio", "sample_rate",
      "frame_count", "voiced_frame_count"] := by
  unfold metadataPairs at h
  rcases List.mem_append.mp h with h12 | hvfc
  · rcases List.mem_append.mp h12 with hbase | hfc
    · have : q = ("duration_seconds", Val.num m.duration_seconds)
          ∨ q = ("voiced_ratio", Val.num m.voiced_ratio)
          ∨ q = ("sample_rate", Val.num (m.sample_rate : ℚ)) := by
        simpa using hbase
      rcases this with rfl | rfl | rfl <;> simp
    · cases hf : m.frame_count
      · rw [hf] at hfc
        simp at hfc
      · rw [hf] at hfc
        rcases List.mem_singleton.mp hfc with rfl
        simp
  · cases hv : m.voiced_frame_count
    · rw [hv] at hvfc
      simp at hvfc
    · rw [hv] at hvfc
      rcases List.mem_singleton.mp hvfc with rfl
      simp

theorem mem_emitFS_shape {fs : FeatureSet} {p : String × Val}
    (h : p ∈ emitFS fs) :
    (∃ kv ∈ fs.features, p = (nsKey fs.extractor kv.1, Val.num kv.2))
    ∨ ∃ s ∈ reservedSuffixes, p.1 = nsKey fs.extractor s := by
  unfold emitFS at h
  rcases List.mem_append.mp h with h' | hmeta
  · rcases List.mem_append.mp h' with h'' | herr
    · rcases List.mem_append.mp h'' with hfeat | hver
      · left
        rcases List.mem_map.mp hfeat with ⟨kv, hkv, rfl⟩
        exact ⟨kv, hkv, rfl⟩
      · right
        rcases List.mem_singleton.mp hver with rfl
        exact ⟨"version", by decide, rfl⟩
    · right
      by_cases he : errTruthy fs.error
      · rw [if_pos he] at herr
        simp only [List.mem_cons, List.mem_singleton, List.not_mem_nil,
          or_false] at herr
        rcases herr with rfl | rfl
        · exact ⟨"error_type", by decide, rfl⟩
        · exact ⟨"error_message", by decide, rfl⟩
      · rw [if_neg he] at herr
        cases herr
  · right
    rcases hm : fs.metadata with _ | m
    · rw [hm] at hmeta
      cases hmeta
    · rw [hm] at hmeta
      rcases List.mem_map.mp hmeta with ⟨q, hq, rfl⟩
      obtain ⟨qk, qv⟩ := q
      refine ⟨"metadata_" ++ qk, ?_, rfl⟩
      have hk := mem_metadataPairs_keys hq
      fin_cases hk <;> decide

theorem mem_emitFS_key_shape {fs : FeatureSet} {key : String}
    (h : key ∈ (emitFS fs).map Prod.fst) :
    ∃ s, key = nsKey fs.extractor s := by
  rcases List.mem_map.mp h with ⟨p, hp, rfl⟩
  rcases mem_emitFS_shape hp with ⟨kv, _, rfl⟩ | ⟨s, _, hs⟩
  · exact ⟨kv.1, rfl⟩
  · exact ⟨s, hs⟩

theorem value_eq_of_nodup_keys :
    ∀ (l : List (String × ℚ)), (l.map Prod.fst).Nodup →
    ∀ (k : String) (v w : ℚ), (k, v) ∈ l → (k, w) ∈ l → v = w := by
  intro l
  induction l with
  | nil =>
    intro _ k v w hv _
    cases hv
  | cons p t ih =>
    intro hnd k v w hv hw
    have hmap : ((p :: t).map Prod.fst) = p.1 :: t.map Prod.fst := rfl
    rw [hmap] at hnd
    have hnd' := List.nodup_cons.mp hnd
    rcases List.mem_cons.mp hv with rfl | hv'
    · rcases List.mem_cons.mp hw with heq | hw'
      · exact (congrArg Prod.snd heq).symm
      · exact absurd (List.mem_map.mpr ⟨(k, w), hw', rfl⟩) hnd'.1
    · rcases List.mem_cons.mp hw with heq | hw'
      · subst heq
        exact absurd (List.mem_map.mpr ⟨(k, v), hv', rfl⟩) hnd'.1
      · exact ih hnd'.2 k v w hv' hw'

theorem recordGet_foldl_keep {k : String} {v : Val} :
    ∀ (r : List (String × Val)), (∀ p ∈ r, p.1 = k → p.2 = v) →
    r.foldl (fun acc p => if p.1 == k then some p.2 else acc) (some v)
      = some v := by
  intro r
  induction r with
  | nil =>
    intro _
    rfl
  | cons p t ih =>
    intro h
    simp only [List.foldl_cons]
    by_cases hb : p.1 = k
    · rw [if_pos (by simp [hb]), h p (List.mem_cons_self p t) hb]
      exact ih fun q hq hqk => h q (List.mem_cons_of_mem p hq) hqk
    · rw [if_neg (by simp [hb])]
      exact ih fun q hq hqk => h q (List.mem_cons_of_mem p hq) hqk

theorem recordGet_eq_some :
    ∀ (r : List (String × Val)) (k : String) (v : Val),
    (k, v) ∈ r → (∀ p ∈ r, p.1 = k → p.2 = v) → recordGet r k = some v := by
  intro r
  induction r with
  | nil =>
    intro k v hmem _
    cases hmem
  | cons p t ih =>
    intro k v hmem huniq
    unfold recordGet
    simp only [List.foldl_cons]
    by_cases hb : p.1 = k
    · rw [if_pos (by simp [hb]), huniq p (List.mem_cons_self p t) hb]
      exact recordGet_foldl_keep t
        fun q hq hqk => huniq q (List.mem_cons_of_mem p hq) hqk
    · rw [if_neg (by simp [hb])]
      rcases List.mem_cons.mp hmem with heq | hmem'
      · exact absurd (congrArg Prod.fst heq).symm hb
      · exact ih k v hmem'
          fun q hq hqk => huniq q (List.mem_cons_of_mem p hq) hqk

/-! ## C3: round-trip namespacing in the aggregator -/

/-- C3 (amended).  For feature sets whose extractor names are pairwise
non-prefixes of one another (distinct names alone are not enough, because
keys are joined with `_`), with distinct feature keys per set, none of them
a reserved suffix (`version`, `error_type`, `error_message`,
`metadata_{field}`): the flattened record maps each `{extractor}_{key}` to
the identical feature value, and no key emitted for one extractor collides
with a key emitted for a different extractor. -/
theorem flatten_roundtrip_namespacing (l : List FeatureSet)
    (hpf : l.Pairwise (fun a b => ¬ a.extractor.data <+: b.extractor.data
      ∧ ¬ b.extractor.data <+: a.extractor.data))
    (hnd : ∀ fs ∈ l, (fs.features.map Prod.fst).Nodup)
    (hres : ∀ fs ∈ l, ∀ kv ∈ fs.features, kv.1 ∉ reservedSuffixes) :
    (∀ fs ∈ l, ∀ kv ∈ fs.features,
      recordGet (flatten_feature_sets l) (nsKey fs.extractor kv.1)
        = some (Val.num kv.2))
    ∧ (∀ fs₁ ∈ l, ∀ fs₂ ∈ l, fs₁.extractor ≠ fs₂.extractor →
      ∀ key ∈ (emitFS fs₁).map Prod.fst,
        key ∉ (emitFS fs₂).map Prod.fst) := by
  have hSym : Symmetric (fun a b : FeatureSet =>
      ¬ a.extractor.data <+: b.extractor.data
      ∧ ¬ b.extractor.data <+: a.extractor.data) :=
    fun a b h => ⟨h.2, h.1⟩
  have hrel := hpf.forall hSym
  constructor
  · intro fs hfs kv hkv
    apply recordGet_eq_some
    · refine List.mem_flatMap.mpr ⟨fs, hfs, ?_⟩
      unfold emitFS
      exact List.mem_append.mpr (Or.inl (List.mem_append.mpr (Or.inl
        (List.mem_append.mpr (Or.inl
          (List.mem_map.mpr ⟨kv, hkv, rfl⟩))))))
    · intro p hp hpk
      rcases List.mem_flatMap.mp hp with ⟨fs', hfs', hp'⟩
      by_cases heq : fs' = fs
      · subst heq
        rcases mem_emitFS_shape hp' with ⟨kv', hkv', rfl⟩ | ⟨s, hs, hkey⟩
        · have hk : kv'.1 = kv.1 := nsKey_inj_right hpk
          have hv : kv'.2 = kv.2 := by
            apply value_eq_of_nodup_keys fs'.features (hnd fs' hfs') kv.1
            · rw [← hk]
              exact hkv'
            · exact hkv
          rw [hv]
        · rw [hpk] at hkey
          have hks : kv.1 = s := nsKey_inj_right hkey
          exact absurd (hks ▸ hs) (hres fs' hfs' kv hkv)
      · exfalso
        have hr := hrel hfs' hfs heq
        rcases mem_emitFS_shape hp' with ⟨kv', _, rfl⟩ | ⟨s, _, hkey⟩
        · exact nsKey_ne_cross hr.1 hr.2 hpk
        · rw [hkey] at hpk
          exact nsKey_ne_cross hr.1 hr.2 hpk
  · intro fs₁ hfs₁ fs₂ hfs₂ hne key hkey₁ hkey₂
    have hne' : fs₁ ≠ fs₂ := fun h => hne (congrArg FeatureSet.extractor h)
    have hr := hrel hfs₁ hfs₂ hne'
    rcases mem_emitFS_key_shape hkey₁ with ⟨s₁, rfl⟩
    rcases mem_emitFS_key_shape hkey₂ with ⟨s₂, hs₂⟩
    exact nsKey_ne_cross hr.1 hr.2 hs₂

/-- Counterexample to C3 as stated: extractor names `"a"` and `"a_b"` are
distinct, yet `a` + key `b_x` and `a_b` + key `x` both namespace to
`"a_b_x"`; the later insertion overwrites the earlier, so the record does
not map the first extractor's namespaced key to its own value. -/
theorem flatten_collision_cex :
    ({ extractor := "a", version := "1.0",
       features := [("b_x", 1)] } : FeatureSet).extractor ≠
      ({ extractor := "a_b", version := "1.0",
         features := [("x", 2)] } : FeatureSet).extractor ∧
    nsKey "a" "b_x" = nsKey "a_b" "x" ∧
    recordGet (flatten_feature_sets
      [{ extractor := "a", version := "1.0", features := [("b_x", 1)] },
       { extractor := "a_b", version := "1.0", features := [("x", 2)] }])
      (nsKey "a" "b_x") = some (Val.num 2) ∧
    recordGet (flatten_feature_sets
      [{ extractor := "a", version := "1.0", features := [("b_x", 1)] },
       { extractor := "a_b", version := "1.0", features := [("x", 2)] }])
      (nsKey "a" "b_x") ≠ some (Val.num 1) := by
  decide

/-- Witness for `flatten_roundtrip_namespacing` on two prefix-free
extractors. -/
theorem flatten_roundtrip_namespacing_witness :
    recordGet (flatten_feature_sets
      [{ extractor := "alpha", version := "1.0", features := [("x", 1)] },
       { extractor := "beta", version := "2.0", features := [("y", 2)] }])
      (nsKey "alpha" "x") = some (Val.num 1) ∧
    recordGet (flatten_feature_sets
      [{ extractor := "alpha", version := "1.0", features := [("x", 1)] },
       { extractor := "beta", version := "2.0", features := [("y", 2)] }])
      (nsKey "beta" "y") = some (Val.num 2) :=
  ⟨(flatten_roundtrip_namespacing
      [{ extractor := "alpha", version := "1.0", features := [("x", 1)] },
       { extractor := "beta", version := "2.0", features := [("y", 2)] }]
      (by decide) (by decide) (by decide)).1
      { extractor := "alpha", version := "1.0", features := [("x", 1)] }
      (by decide) ("x", 1) (by decide),
   (flatten_roundtrip_namespacing
      [{ extractor := "alpha", version := "1.0", features := [("x", 1)] },
       { extractor := "beta", version := "2.0", features := [("y", 2)] }]
      (by decide) (by decide) (by decide)).1
      { extractor := "beta", version := "2.0", features := [("y", 2)] }
      (by decide) ("y", 2) (by decide)⟩

/-! ## C4: the stability scorer's contract -/

/-- C4.  The stability scorer is a pure function whose result lies in
`[0, 100]` whenever `f0_confidence` lies in `[0, 100]`: it is the weighted
sum of the `f0_confidence × 0.4` term and the jitter/shimmer/HNR piecewise
scores `× 0.2` each, a component included only when its source feature is
present and positive; the jitter component is `100` below `1.0`, `80` below
`2.0`, linear from `80` down to `20` over `2.0`–`5.0`, and `20` at or above
`5.0`; with no components present the score is `0.0`. -/
theorem stability_score_contract (th : ℚ) (f : List (String × ℚ))
    (h0 : 0 ≤ featGet f "f0_confidence" 0)
    (h100 : featGet f "f0_confidence" 0 ≤ 100) :
    (0 ≤ calculate_vocal_stability_score th f
      ∧ calculate_vocal_stability_score th f ≤ 100)
    ∧ calculate_vocal_stability_score th f =
        featGet f "f0_confidence" 0 * 0.4
        + (if featGet f "jitter_local" 0 > 0
           then jitter_score (featGet f "jitter_local" 0) * 0.2 else 0)
        + (if featGet f "shimmer_local" 0 > 0
           then shimmer_score (featGet f "shimmer_local" 0) * 0.2 else 0)
        + (if featGet f "hnr_mean" 0 > 0
           then hnr_score th (featGet f "hnr_mean" 0) * 0.2 else 0)
    ∧ (∀ j : ℚ, (j < 1 → jitter_score j = 100)
        ∧ (1 ≤ j → j < 2 → jitter_score j = 80)
        ∧ (2 ≤ j → j < 5 → jitter_score j = 80 - (j - 2) / 3 * 60)
        ∧ (5 ≤ j → jitter_score j = 20))
    ∧ calculate_vocal_stability_score th [] = 0 := by
  refine ⟨?_, stability_score_shape th f, ?_, ?_⟩
  · have hj := jitter_score_bounds (featGet f "jitter_local" 0)
    have hs := shimmer_score_bounds (featGet f "shimmer_local" 0)
    have hh := hnr_score_bounds th (featGet f "hnr_mean" 0)
    rw [stability_score_shape th f]
    constructor <;> split_ifs <;>
      linarith [hj.1, hj.2, hs.1, hs.2, hh.1, hh.2]
  · intro j
    exact ⟨fun h => jitter_score_lt_one h,
      fun h1 h2 => jitter_score_one_two h1 h2,
      fun h1 h2 => jitter_score_two_five h1 h2,
      fun h => jitter_score_ge_five h⟩
  · simp [calculate_vocal_stability_score, featGet]

/-- Witness for `stability_score_contract` at a concrete feature map. -/
theorem stability_score_contract_witness :
    (0 ≤ featGet [("f0_confidence", 50)] "f0_confidence" 0
      ∧ featGet [("f0_confidence", 50)] "f0_confidence" 0 ≤ 100)
    ∧ (0 ≤ calculate_vocal_stability_score 20 [("f0_confidence", 50)]
      ∧ calculate_vocal_stability_score 20 [("f0_confidence", 50)] ≤ 100) :=
  ⟨⟨by decide, by decide⟩,
   (stability_score_contract 20 [("f0_confidence", 50)]
     (by decide) (by decide)).1⟩

/-! ## C5: monotonicity of the scorer's components -/

/-- C5.  Holding all other features fixed, the jitter component is weakly
decreasing as `jitter_local` increases from `0.5` to `8` (strictly inside
the interpolation region up to the 20-point floor); the shimmer component
behaves the same as `shimmer_local` increases; and the HNR component
(at the default excellent threshold `20`) is weakly increasing as
`hnr_mean` increases from `8` to `22` (strictly below the `10` knee). -/
theorem stability_component_monotonicity :
    (∀ a b : ℚ, 1 / 2 ≤ a → a ≤ b → b ≤ 8 → jitter_score b ≤ jitter_score a)
    ∧ (∀ a b : ℚ, 2 ≤ a → a < b → b ≤ 5 → jitter_score b < jitter_score a)
    ∧ (∀ a b : ℚ, 1 / 2 ≤ a → a ≤ b → b ≤ 8 →
        shimmer_score b ≤ shimmer_score a)
    ∧ (∀ a b : ℚ, 6 ≤ a → a < b → b ≤ 8 → shimmer_score b < shimmer_score a)
    ∧ (∀ a b : ℚ, 8 ≤ a → a ≤ b → b ≤ 22 → hnr_score 20 a ≤ hnr_score 20 b)
    ∧ (∀ a b : ℚ, 8 ≤ a → a < b → b < 10 →
        hnr_score 20 a < hnr_score 20 b) := by
  refine ⟨?_, ?_, ?_, ?_, ?_, ?_⟩
  · intro a b ha hab hb8
    rcases lt_or_le b 1 with hb1 | hb1
    · rw [jitter_score_lt_one hb1, jitter_score_lt_one (lt_of_le_of_lt hab hb1)]
    · rcases lt_or_le b 2 with hb2 | hb2
      · rw [jitter_score_one_two hb1 hb2]
        rcases lt_or_le a 1 with ha1 | ha1
        · rw [jitter_score_lt_one ha1]
          norm_num
        · rw [jitter_score_one_two ha1 (lt_of_le_of_lt hab hb2)]
      · rcases lt_or_le b 5 with hb5 | hb5
        · rw [jitter_score_two_five hb2 hb5]
          rcases lt_or_le a 1 with ha1 | ha1
          · rw [jitter_score_lt_one ha1]
            linarith
          · rcases lt_or_le a 2 with ha2 | ha2
            · rw [jitter_score_one_two ha1 ha2]
              linarith
            · rw [jitter_score_two_five ha2 (lt_of_le_of_lt hab hb5)]
              linarith
        · rw [jitter_score_ge_five hb5]
          linarith [(jitter_score_bounds a).1]
  · intro a b ha hab hb5
    rcases lt_or_le b 5 with hb | hb
    · rw [jitter_score_two_five (by linarith) hb,
        jitter_score_two_five ha (lt_of_lt_of_le hab hb5)]
      linarith
    · have hb5' : b = 5 := le_antisymm hb5 hb
      rw [hb5', jitter_score_ge_five (le_refl 5),
        jitter_score_two_five ha (by linarith)]
      linarith
  · intro a b ha hab hb8
    rcases lt_or_le b 4 with hb1 | hb1
    · rw [shimmer_score_lt_four hb1,
        shimmer_score_lt_four (lt_of_le_of_lt hab hb1)]
    · rcases lt_or_le b 6 with hb2 | hb2
      · rw [shimmer_score_four_six hb1 hb2]
        rcases lt_or_le a 4 with ha1 | ha1
        · rw [shimmer_score_lt_four ha1]
          norm_num
        · rw [shimmer_score_four_six ha1 (lt_of_le_of_lt hab hb2)]
      · rw [shimmer_score_six_ten hb2 (by linarith)]
        rcases lt_or_le a 4 with ha1 | ha1
        · rw [shimmer_score_lt_four ha1]
          linarith
        · rcases lt_or_le a 6 with ha2 | ha2
          · rw [shimmer_score_four_six ha1 ha2]
            linarith
          · rw [shimmer_score_six_ten ha2 (by linarith)]
            linarith
  · intro a b ha hab hb8
    rw [shimmer_score_six_ten (by linarith) (by linarith),
      shimmer_score_six_ten ha (by linarith)]
    linarith
  · intro a b ha hab hb22
    rcases lt_or_le a 10 with ha10 | ha10
    · have haL : hnr_score 20 a = a / 10 * 40 :=
        hnr_score_low (by linarith) ha10 (by linarith)
      rcases lt_or_le b 10 with hb10 | hb10
      · rw [haL, hnr_score_low (by linarith) hb10 (by linarith)]
        linarith
      · rcases lt_or_le b 15 with hb15 | hb15
        · rw [haL, hnr_score_ten (by linarith) hb15 hb10]
          linarith
        · rcases lt_or_le b 20 with hb20 | hb20
          · rw [haL, hnr_score_fifteen (by linarith) hb15]
            linarith
          · rw [haL, hnr_score_ge_th hb20]
            linarith
    · rcases lt_or_le a 15 with ha15 | ha15
      · have haM : hnr_score 20 a = 60 := hnr_score_ten (by linarith) ha15 ha10
        rcases lt_or_le b 15 with hb15 | hb15
        · rw [haM, hnr_score_ten (by linarith) hb15 (by linarith)]
        · rcases lt_or_le b 20 with hb20 | hb20
          · rw [haM, hnr_score_fifteen (by linarith) hb15]
            norm_num
          · rw [haM, hnr_score_ge_th hb20]
            norm_num
      · rcases lt_or_le a 20 with ha20 | ha20
        · have haH : hnr_score 20 a = 80 :=
            hnr_score_fifteen (by linarith) ha15
          rcases lt_or_le b 20 with hb20 | hb20
          · rw [haH, hnr_score_fifteen (by linarith) (by linarith)]
          · rw [haH, hnr_score_ge_th hb20]
            norm_num
        · rw [hnr_score_ge_th ha20, hnr_score_ge_th (by linarith)]
  · intro a b ha hab hb10
    rw [hnr_score_low (by linarith) (by linarith) (by linarith),
      hnr_score_low (by linarith) hb10 (by linarith)]
    linarith

/-- Witness for `stability_component_monotonicity` at concrete points. -/
theorem stability_component_monotonicity_witness :
    ((1 : ℚ) / 2 ≤ 1 ∧ (1 : ℚ) ≤ 3 ∧ (3 : ℚ) ≤ 8) ∧
    jitter_score 3 ≤ jitter_score 1 ∧
    jitter_score 4 < jitter_score 3 ∧
    shimmer_score 5 ≤ shimmer_score 3 ∧
    shimmer_score 8 < shimmer_score 7 ∧
    hnr_score 20 8 ≤ hnr_score 20 16 ∧
    hnr_score 20 8 < hnr_score 20 9 :=
  ⟨⟨by norm_num, by norm_num, by norm_num⟩,
   stability_component_monotonicity.1 1 3 (by norm_num) (by norm_num)
     (by norm_num),
   stability_component_monotonicity.2.1 3 4 (by norm_num) (by norm_num)
     (by norm_num),
   stability_component_monotonicity.2.2.1 3 5 (by norm_num) (by norm_num)
     (by norm_num),
   stability_component_monotonicity.2.2.2.1 7 8 (by norm_num) (by norm_num)
     (by norm_num),
   stability_component_monotonicity.2.2.2.2.1 8 16 (by norm_num) (by norm_num)
     (by norm_num),
   stability_component_monotonicity.2.2.2.2.2 8 9 (by norm_num) (by norm_num)
     (by norm_num)⟩

/-! ## C9: the extractor's own 1-second precondition -/

/-- C9 (amended).  `VocalAnalysisExtractor.validate_audio_quality` does
reject any buffer shorter than `1.0` seconds, but the analysis pipeline
never consults it: `VoiceAnalysisService.analyze` invokes each extractor's
`extract` unconditionally, so such a recording still undergoes the
extractor's analysis. -/
theorem short_audio_rejected_but_validation_not_consulted :
    (∀ (audio : FAudio) (sr : ℤ), 0 < sr →
      (audio.length : ℚ) / (sr : ℚ) < 1 →
      vocal_validate_audio_quality audio sr = false)
    ∧ (∀ (ext : FAudio → ℤ → FeatureSet) (audio : FAudio) (sr : ℤ),
      analyze [ext] audio sr = [ext audio sr]) := by
  constructor
  · intro audio sr hsr hdur
    unfold vocal_validate_audio_quality base_validate_audio_quality
    by_cases hlen : audio.length = 0
    · simp [hlen]
    · by_cases h01 : (audio.length : ℚ) / (sr : ℚ) < 0.1
      · simp [hlen, h01]
      · simp [hlen, h01, hdur]
  · intro ext audio sr
    rfl

/-- Counterexample to C9 as stated: a half-second buffer fails the
extractor's own validation, yet the service still performs the extraction —
`analyze` returns the extractor's `FeatureSet` for that very buffer instead
of skipping it. -/
theorem short_audio_still_extracted_cex :
    vocal_validate_audio_quality [some 1, some 1] 4 = false ∧
    analyze [fun _ _ => extract_extraction_failed 4 "boom" "1.0"]
      [some 1, some 1] 4 = [extract_extraction_failed 4 "boom" "1.0"] := by
  constructor
  · unfold vocal_validate_audio_quality base_validate_audio_quality
    norm_num
  · rfl

/-- Witness for `short_audio_rejected_but_validation_not_consulted`. -/
theorem short_audio_rejected_witness :
    ((0 : ℤ) < 4 ∧ ((([some 1, some 1] : FAudio).length : ℚ) / ((4 : ℤ) : ℚ) < 1)) ∧
    vocal_validate_audio_quality [some 1, some 1] 4 = false ∧
    analyze [fun _ _ => extract_library_unavailable 4 "x" "1.0"]
      [some 1, some 1] 4 = [extract_library_unavailable 4 "x" "1.0"] :=
  ⟨⟨by norm_num, by norm_num⟩,
   short_audio_rejected_but_validation_not_consulted.1 [some 1, some 1] 4
     (by norm_num) (by norm_num),
   short_audio_rejected_but_validation_not_consulted.2 _ _ _⟩

theorem errorZeroFeatures_all_zero : ∀ kv ∈ errorZeroFeatures, kv.2 = 0 := by
  decide

theorem errorZeroFeatures_filled :
    ∀ n ∈ get_feature_names, n ∉ unfilledQualityNames →
      featLookup errorZeroFeatures n = some 0 := by
  decide

theorem errorZeroFeatures_missing :
    ∀ n ∈ unfilledQualityNames, featLookup errorZeroFeatures n = none := by
  decide

/-! ## C7: the library-unavailable error path -/

/-- C7 (amended).  When the acoustic library import fails, `extract`
returns (rather than raises) a `FeatureSet` whose error field is
`'parselmouth_unavailable'` (not `"voice_analysis_library_unavailable"` as
the spec states), with every feature zero-filled and metadata carrying the
nominal `voiced_ratio = 0.8` placeholder. -/
theorem library_unavailable_featureset (sr : ℤ) (msg ver : String) :
    (extract_library_unavailable sr msg ver).error =
      some "parselmouth_unavailable"
    ∧ (∀ kv ∈ (extract_library_unavailable sr msg ver).features, kv.2 = 0)
    ∧ (extract_library_unavailable sr msg ver).metadata =
        some { voiced_ratio := 0.8, sample_rate := sr } :=
  ⟨rfl, fun kv hkv => errorZeroFeatures_all_zero kv hkv, rfl⟩

/-- Counterexample to C7 as stated: the error kind the source produces is
`'parselmouth_unavailable'`, not `"voice_analysis_library_unavailable"`. -/
theorem library_unavailable_error_string_cex :
    (extract_library_unavailable 4 "m" "1.0").error =
      some "parselmouth_unavailable" ∧
    (extract_library_unavailable 4 "m" "1.0").error ≠
      some "voice_analysis_library_unavailable" := by
  decide

/-! ## C2: zero-fill on the error paths -/

/-- C2 (amended).  On both error paths every feature the error branch fills
is present with value `0.0` — but only 10 of the 14 canonical names of
`get_feature_names` are filled: `jitter_rap`, `jitter_ppq5`, `shimmer_apq3`
and `shimmer_apq5` are absent.  The aggregated record carries the
extractor's `error_type` and `error_message` keys together. -/
theorem error_paths_zero_fill (sr : ℤ) (msg ver : String) :
    ((∀ n ∈ get_feature_names, n ∉ unfilledQualityNames →
        featLookup (extract_library_unavailable sr msg ver).features n = some 0)
     ∧ (∀ n ∈ unfilledQualityNames,
        featLookup (extract_library_unavailable sr msg ver).features n = none)
     ∧ recordGet (flatten_feature_sets [extract_library_unavailable sr msg ver])
         "vocal_analysis_error_type" = some (Val.str "parselmouth_unavailable")
     ∧ recordGet (flatten_feature_sets [extract_library_unavailable sr msg ver])
         "vocal_analysis_error_message" = some (Val.str msg))
    ∧ ((∀ n ∈ get_feature_names, n ∉ unfilledQualityNames →
        featLookup (extract_extraction_failed sr msg ver).features n = some 0)
     ∧ (∀ n ∈ unfilledQualityNames,
        featLookup (extract_extraction_failed sr msg ver).features n = none)
     ∧ recordGet (flatten_feature_sets [extract_extraction_failed sr msg ver])
         "vocal_analysis_error_type" = some (Val.str "extraction_failed")
     ∧ recordGet (flatten_feature_sets [extract_extraction_failed sr msg ver])
         "vocal_analysis_error_message" = some (Val.str msg)) :=
  ⟨⟨fun n hn hu => errorZeroFeatures_filled n hn hu,
    fun n hn => errorZeroFeatures_missing n hn, rfl, rfl⟩,
   ⟨fun n hn hu => errorZeroFeatures_filled n hn hu,
    fun n hn => errorZeroFeatures_missing n hn, rfl, rfl⟩⟩

/-- Counterexample to C2 as stated: `jitter_rap` is a canonical feature name
but is absent from the error path's zero-filled features. -/
theorem error_zero_fill_incomplete_cex :
    "jitter_rap" ∈ get_feature_names ∧
    featLookup (extract_library_unavailable 4 "m" "1.0").features
      "jitter_rap" = none := by
  decide

/-! ## C8: null metadata fields are omitted — but only the Optional ones -/

/-- C8 (amended).  The aggregator omits a `metadata_{field}` key exactly when
the field's value is `None`; the fields declared `Optional` in
`FeatureMetadata` (`frame_count`, `voiced_frame_count`) default to `None`
and are then omitted.  But `duration_seconds` is a plain float defaulting to
`0.0`, not `None`, so a metadata constructed without a duration still emits
`{extractor}_metadata_duration_seconds = 0.0` in the aggregated record. -/
theorem metadata_null_omission (m : FeatureMetadata) :
    (m.frame_count = none →
      "frame_count" ∉ (metadataPairs m).map Prod.fst)
    ∧ (m.voiced_frame_count = none →
      "voiced_frame_count" ∉ (metadataPairs m).map Prod.fst)
    ∧ "duration_seconds" ∈ (metadataPairs m).map Prod.fst
    ∧ ∀ (sr : ℤ) (msg ver : String),
        recordGet (flatten_feature_sets [extract_extraction_failed sr msg ver])
          "vocal_analysis_metadata_duration_seconds" = some (Val.num 0)
        ∧ recordGet (flatten_feature_sets [extract_extraction_failed sr msg ver])
          "vocal_analysis_metadata_frame_count" = none := by
  refine ⟨?_, ?_, ?_, ?_⟩
  · intro h
    cases hv : m.voiced_frame_count <;> simp [metadataPairs, h, hv]
  · intro h
    cases hf : m.frame_count <;> simp [metadataPairs, h, hf]
  · simp [metadataPairs]
  · intro sr msg ver
    exact ⟨rfl, rfl⟩

/-- Counterexample to C8 as stated: the `FeatureSet` built by the
extraction-failed branch constructs its metadata without a duration value,
yet the aggregated record does contain
`vocal_analysis_metadata_duration_seconds` (with value `0.0`). -/
theorem metadata_duration_emitted_cex :
    recordGet (flatten_feature_sets [extract_extraction_failed 4 "m" "1.0"])
      "vocal_analysis_metadata_duration_seconds" = some (Val.num 0) ∧
    recordGet (flatten_feature_sets [extract_extraction_failed 4 "m" "1.0"])
      "vocal_analysis_metadata_duration_seconds" ≠ none := by
  decide

/-- Witness for `metadata_null_omission` at the all-default metadata. -/
theorem metadata_null_omission_witness :
    ({} : FeatureMetadata).frame_count = none ∧
    "frame_count" ∉ (metadataPairs {}).map Prod.fst ∧
    "duration_seconds" ∈ (metadataPairs {}).map Prod.fst :=
  ⟨rfl, (metadata_null_omission {}).1 rfl, (metadata_null_omission {}).2.2.1⟩

/-! ## C1: the insufficient-voiced-frames fallback -/

/-- C1 (amended).  When pitch tracking succeeds but at most 10 frames are
voiced, the success path fills exactly six quality measures with `0.0`
(`jitter_local`, `jitter_absolute`, `shimmer_local`, `shimmer_db`,
`hnr_mean`, `hnr_std`); `jitter_rap`, `jitter_ppq5`, `shimmer_apq3` and
`shimmer_apq5` are absent from the returned features.  No quality
computation is attempted: the result does not depend on the jitter/shimmer
or harmonicity engine outputs. -/
theorem low_voiced_frames_zero_fill_subset (sqrtQ : ℚ → ℚ) (th : ℚ)
    (ver : String) (pv : List ℚ) (js : Option JSResults)
    (harm : Option (List ℚ)) (sr : ℤ)
    (hle : (pv.filter (fun x => x > 0)).length ≤ 10) :
    (∀ n ∈ lowVoicedZeroNames,
      featLookup (extract_success sqrtQ th ver pv js harm sr).features n = some 0)
    ∧ (∀ n ∈ unfilledQualityNames,
      featLookup (extract_success sqrtQ th ver pv js harm sr).features n = none)
    ∧ extract_success sqrtQ th ver pv js harm sr =
        extract_success sqrtQ th ver pv none none sr := by
  have hngt : ¬ (pv.filter (fun x => x > 0)).length > 10 := not_lt.mpr hle
  refine ⟨?_, ?_, ?_⟩
  · intro n hn
    fin_cases hn <;>
      by_cases h0 : (pv.filter (fun x => x > 0)).length > 0 <;>
        simp [extract_success, hngt, h0, featLookup]
  · intro n hn
    fin_cases hn <;>
      by_cases h0 : (pv.filter (fun x => x > 0)).length > 0 <;>
        simp [extract_success, hngt, h0, featLookup]
  · simp [extract_success, hngt]

/-- Counterexample to C1 as stated: five voiced frames (≤ 10), yet
`jitter_rap` is not present at all in the returned features, let alone with
value `0.0`. -/
theorem low_voiced_frames_missing_keys_cex :
    (([150, 150, 150, 150, 150] : List ℚ).filter (fun x => x > 0)).length = 5 ∧
    featLookup (extract_success (fun _ => 0) 20 "1.0" [150, 150, 150, 150, 150]
      none none 4).features "jitter_rap" = none := by
  decide

/-- Witness for `low_voiced_frames_zero_fill_subset`: five voiced frames,
with engine outputs supplied but ignored. -/
theorem low_voiced_frames_zero_fill_subset_witness :
    (([150, 150, 150, 150, 150] : List ℚ).filter (fun x => x > 0)).length ≤ 10 ∧
    featLookup (extract_success (fun _ => 0) 20 "1.0" [150, 150, 150, 150, 150]
      (some ⟨1, 1, 1, 1, 1, 1, 1, 1⟩) (some [1]) 4).features "shimmer_apq3" = none ∧
    featLookup (extract_success (fun _ => 0) 20 "1.0" [150, 150, 150, 150, 150]
      (some ⟨1, 1, 1, 1, 1, 1, 1, 1⟩) (some [1]) 4).features "hnr_mean" = some 0 :=
  ⟨by decide,
   (low_voiced_frames_zero_fill_subset (fun _ => 0) 20 "1.0"
     [150, 150, 150, 150, 150] (some ⟨1, 1, 1, 1, 1, 1, 1, 1⟩) (some [1]) 4
     (by decide)).2.1 "shimmer_apq3" (by decide),
   (low_voiced_frames_zero_fill_subset (fun _ => 0) 20 "1.0"
     [150, 150, 150, 150, 150] (some ⟨1, 1, 1, 1, 1, 1, 1, 1⟩) (some [1]) 4
     (by decide)).1 "hnr_mean" (by decide)⟩

end Sage
